import Mathlib

/-!
Shallow embedding of the GA4_sessions_fetcher repository: HTTP-triggered
functions that proxy Google Analytics Admin/Data API calls.  The files
`main.py`, `main_oauth.py`, `main_old.py`, `sessions.py` and `accounts.py`
are embedded as pure Lean functions; the vendor SDK calls (`run_report`,
`list_account_summaries`) are passed in as explicit oracles, and Python
exceptions are modelled by `Except PyExc`.
-/

/-- A Python exception as observed by the handlers: `msg` models `str(e)`
and `traceback` models `traceback.format_exc()` for that exception. -/
structure PyExc where
  msg : String
  traceback : String
deriving DecidableEq

/-- Models raising `ValueError(m)`: the traceback text records the message. -/
def valueError (m : String) : PyExc :=
  { msg := m, traceback := "Traceback (most recent call last): ValueError: " ++ m }

/-- Structural model of Python `str.strip()`: drop whitespace from both ends.
Implemented over the character list so the kernel can evaluate it. -/
def pyStrip (s : String) : String :=
  String.mk (((s.toList.dropWhile Char.isWhitespace).reverse.dropWhile Char.isWhitespace).reverse)

/-- Structural model of Python `s.startswith(pre)`. -/
def pyStartsWith (s pre : String) : Bool :=
  s.toList.take pre.toList.length == pre.toList

/-- Drop the first `n` characters of `s`; used to model taking the text after
the first space of a header that starts with the 7-character text BEARER-SPACE
(Python `auth_header.split(" ", 1)[1]`). -/
def pyDropChars (n : Nat) (s : String) : String :=
  String.mk (s.toList.drop n)

/-- Numeric value of a list of decimal digit characters. -/
def digitsVal (l : List Char) : Nat :=
  l.foldl (fun acc c => 10 * acc + (c.toNat - 48)) 0

/-- Parse a nonempty all-digit character list, else `none`. -/
def digitsCore (l : List Char) : Option Nat :=
  if !l.isEmpty && l.all Char.isDigit then some (digitsVal l) else none

/-- Model of Python `int(s)` on strings: strip whitespace, optional sign,
then decimal digits; any other shape raises (modelled as `none`). -/
def pyInt (s : String) : Option Int :=
  match (pyStrip s).toList with
  | [] => none
  | c :: cs =>
    if c = '-' then (digitsCore cs).map (fun n => -(n : Int))
    else if c = '+' then (digitsCore cs).map (fun n => (n : Int))
    else (digitsCore (c :: cs)).map (fun n => (n : Int))

/-- First-match association-list lookup, modelling `dict.get` /
`MultiDict.get` (returns `None` when the key is absent). -/
def lookupStr : List (String × String) → String → Option String
  | [], _ => none
  | (k, v) :: rest, key => if k = key then some v else lookupStr rest key

/-- Python truthiness of an optional string: `None` and `""` are falsy. -/
def truthy : Option String → Bool
  | none => false
  | some s => !(s == "")

/-- Python `a or b` on optional strings: keep `a` when truthy, else `b`. -/
def pyOr (a b : Option String) : Option String :=
  if truthy a then a else b

/-- Python `a or d` with a string literal default (`start_date or "30daysAgo"`,
and equivalently `if not start_date: start_date = "30daysAgo"`). -/
def pyOrD (a : Option String) (d : String) : String :=
  match a with
  | some s => if s == "" then d else s
  | none => d

/-- Model of Python `"/".split`-based last segment: `s.split("/")[-1]`.
`splitChars` reproduces `str.split("/")` on the character list. -/
def splitChars : List Char → List (List Char)
  | [] => [[]]
  | c :: cs =>
    if c = '/' then [] :: splitChars cs
    else
      match splitChars cs with
      | [] => [[c]]
      | r :: rs => (c :: r) :: rs

/-- Last segment after splitting on `/`, i.e. `s.split("/")[-1]`. -/
def lastSegment (s : String) : String :=
  ((splitChars s.toList).map String.mk).getLastD s

/-- An incoming HTTP request as the handlers observe it: method, headers,
query-string arguments, and the parsed JSON body (`request.get_json(silent=True)`;
`none` models a missing or unparseable body). -/
structure HttpRequest where
  method : String
  headers : List (String × String)
  args : List (String × String)
  jsonBody : Option (List (String × String))
deriving DecidableEq

/-- Models `request.headers.get(k, dflt)`. -/
def headerGet (hs : List (String × String)) (k dflt : String) : String :=
  (lookupStr hs k).getD dflt

/-- Models `request.args.get(k) if request.args else None`: an empty
args mapping is falsy, so every lookup yields `None`. -/
def argsGet (req : HttpRequest) (k : String) : Option String :=
  if req.args.isEmpty then none else lookupStr req.args k

/-- Models `data = request.get_json(silent=True) or {}`. -/
def bodyDict (req : HttpRequest) : List (String × String) :=
  req.jsonBody.getD []

/-- OAuth2 credentials as constructed by the handlers. -/
structure Credentials where
  token : String
  scopes : Option (List String)
deriving DecidableEq

/-- A GA4 report metric request entry (`{"name": "sessions"}`). -/
structure Metric where
  name : String
deriving DecidableEq

/-- A GA4 report date range. -/
structure DateRange where
  start_date : String
  end_date : String
deriving DecidableEq

/-- The vendor `RunReportRequest` as built by the handlers. -/
structure RunReportRequest where
  property : String
  metrics : List Metric
  date_ranges : List DateRange
deriving DecidableEq

/-- A metric value inside a vendor report row; the vendor returns the
count as a string which the handlers pass to `int(...)`. -/
structure MetricValue where
  value : String
deriving DecidableEq

/-- One row of a vendor report response. -/
structure ReportRow where
  metric_values : List MetricValue
deriving DecidableEq

/-- The vendor `RunReportResponse`. -/
structure RunReportResponse where
  rows : List ReportRow
deriving DecidableEq

/-- A property summary nested in a vendor account summary. -/
structure PropertySummary where
  property : String
  display_name : String
deriving DecidableEq

/-- A vendor account summary from `list_account_summaries()`. -/
structure AccountSummary where
  account : String
  display_name : String
  property_summaries : List PropertySummary
deriving DecidableEq

/-- One serialized property entry of the accounts listing. -/
structure PropertyEntry where
  property : String
  propertyId : String
  displayName : String
deriving DecidableEq

/-- One serialized account entry of the accounts listing. -/
structure AccountEntry where
  account : String
  displayName : String
  properties : List PropertyEntry
deriving DecidableEq

/-- The JSON bodies the handlers produce, in shape: the empty preflight body,
a single-field error object, the error-plus-traceback object, the sessions
report object, and the accounts listing object. -/
inductive ResponseBody where
  | empty : ResponseBody
  | errorMsg (error : String) : ResponseBody
  | errorWithTraceback (error traceback : String) : ResponseBody
  | sessionsReport (propertyId start_date end_date : String) (sessions : Int) : ResponseBody
  | accountsReport (accounts : List AccountEntry) : ResponseBody
deriving DecidableEq

/-- An HTTP response tuple `(body, status, headers)` as returned by the
Cloud Functions. -/
structure HttpResponse where
  body : ResponseBody
  status : Nat
  headers : List (String × String)
deriving DecidableEq

/-- Output of a sessions handler: the returned response (or the propagated
uncaught exception) together with the list of vendor `run_report` calls
actually issued. -/
structure SessionsOut where
  result : Except PyExc HttpResponse
  calls : List RunReportRequest

/-- Output of an accounts handler: the returned response (or the propagated
uncaught exception) and whether the Admin API was called. -/
structure AccountsOut where
  result : Except PyExc HttpResponse
  adminCalled : Bool

/-- Plain `Content-Type: application/json` headers used outside `main.py`. -/
def contentTypeHeaders : List (String × String) :=
  [("Content-Type", "application/json")]

/-- The serialization loop over account summaries, identical in
`main.py` (`ga4_list_accounts_oauth`), `main_oauth.py` (`ga4_list_accounts`),
`main_old.py` (`ga4_list_accounts`) and `accounts.py` (`main`): each
account carries its `account` and `display_name`, and each property entry
carries the resource name together with `property.split("/")[-1]`. -/
def accountsData (summaries : List AccountSummary) : List AccountEntry :=
  summaries.map (fun summary =>
    { account := summary.account
      displayName := summary.display_name
      properties := summary.property_summaries.map (fun prop_summary =>
        { property := prop_summary.property
          propertyId := lastSegment prop_summary.property
          displayName := prop_summary.display_name }) })

/-- Parameter extraction shared verbatim by the three sessions handlers:
each of `property_id`, `start_date`, `end_date` is read from the query
string; the JSON body is consulted (with `x or data.get(...)` fallback)
only when `property_id` was falsy in the query string. -/
structure SessionParams where
  property_id : Option String
  start_date : Option String
  end_date : Option String

/-- Computes the three request parameters exactly as the sessions handlers
do (`main.py` lines 119-128, `main_oauth.py` lines 107-120,
`main_old.py` lines 88-103). -/
def sessionParams (req : HttpRequest) : SessionParams :=
  if !truthy (argsGet req "property_id") then
    { property_id := pyOr (argsGet req "property_id") (lookupStr (bodyDict req) "property_id")
      start_date := pyOr (argsGet req "start_date") (lookupStr (bodyDict req) "start_date")
      end_date := pyOr (argsGet req "end_date") (lookupStr (bodyDict req) "end_date") }
  else
    { property_id := argsGet req "property_id"
      start_date := argsGet req "start_date"
      end_date := argsGet req "end_date" }

/-- Effective property id once known truthy (the nonempty string). -/
def corePid (req : HttpRequest) : String :=
  (sessionParams req).property_id.getD ""

/-- Effective start date after the `"30daysAgo"` default. -/
def coreStart (req : HttpRequest) : String :=
  pyOrD (sessionParams req).start_date "30daysAgo"

/-- Effective end date after the `"today"` default. -/
def coreEnd (req : HttpRequest) : String :=
  pyOrD (sessionParams req).end_date "today"

/-- The vendor request constructed by every sessions function:
`RunReportRequest(property=f"properties/{pid}", metrics=[{"name": "sessions"}],
date_ranges=[{"start_date": sd, "end_date": ed}])`. -/
def mkRunReportRequest (pid sd ed : String) : RunReportRequest :=
  { property := "properties/" ++ pid
    metrics := [{ name := "sessions" }]
    date_ranges := [{ start_date := sd, end_date := ed }] }

/-- The vendor request a sessions handler issues for a given request. -/
def coreRequest (req : HttpRequest) : RunReportRequest :=
  mkRunReportRequest (corePid req) (coreStart req) (coreEnd req)

/-- Session-count extraction shared by all sessions functions:
`0` when the response has no rows, else `int(response.rows[0].metric_values[0].value)`;
a missing metric value raises IndexError and a non-numeric value raises
ValueError, both modelled as errors. -/
def extractSessions (resp : RunReportResponse) : Except PyExc Int :=
  match resp.rows with
  | [] => Except.ok 0
  | r :: _ =>
    match r.metric_values with
    | [] => Except.error { msg := "list index out of range",
                           traceback := "Traceback (most recent call last): IndexError: list index out of range" }
    | mv :: _ =>
      match pyInt mv.value with
      | some n => Except.ok n
      | none => Except.error (valueError ("invalid literal for int() with base 10: " ++ mv.value))

/-- The 400 body `{"error": "Missing required parameter: property_id"}`. -/
def missingPropBody : ResponseBody :=
  ResponseBody.errorMsg "Missing required parameter: property_id"

/-- The 200 sessions body
`{"propertyId": ..., "dateRange": {"start_date": ..., "end_date": ...}, "metrics": {"sessions": ...}}`. -/
def sessionsResult (pid sd ed : String) (total : Int) : ResponseBody :=
  ResponseBody.sessionsReport pid sd ed total

/-- The part of the sessions handlers after authentication, identical in the
three files up to the header set: 400 on a falsy `property_id`, else one
`run_report` call, session extraction and the 200 report. -/
def sessionsCore (hdrs : List (String × String)) (req : HttpRequest)
    (run_report : RunReportRequest → Except PyExc RunReportResponse) : SessionsOut :=
  if !truthy (sessionParams req).property_id then
    { result := Except.ok { body := missingPropBody, status := 400, headers := hdrs }, calls := [] }
  else
    match run_report (coreRequest req) with
    | Except.error e => { result := Except.error e, calls := [coreRequest req] }
    | Except.ok response =>
      match extractSessions response with
      | Except.error e => { result := Except.error e, calls := [coreRequest req] }
      | Except.ok total_sessions =>
        { result := Except.ok { body := sessionsResult (corePid req) (coreStart req) (coreEnd req) total_sessions,
                                status := 200, headers := hdrs }
          calls := [coreRequest req] }

/-- Condition under which the bearer handlers accept the Authorization
header: it starts with BEARER-SPACE and the rest is nonempty after strip. -/
def validBearer (req : HttpRequest) : Bool :=
  pyStartsWith (headerGet req.headers "Authorization" "") "Bearer " &&
    !(pyStrip (pyDropChars 7 (headerGet req.headers "Authorization" "")) == "")

namespace MainPy

/-- The CORS header set from `main.py` `_cors_headers()`. -/
def cors_headers : List (String × String) :=
  [("Content-Type", "application/json"),
   ("Access-Control-Allow-Origin", "*"),
   ("Access-Control-Allow-Headers", "Authorization, Content-Type"),
   ("Access-Control-Allow-Methods", "GET, POST, OPTIONS")]

/-- `main.py` `_get_user_credentials_from_request`: requires a header that
starts with BEARER-SPACE and a nonempty stripped token; raises ValueError
otherwise; passes the analytics.readonly scope hint. -/
def get_user_credentials_from_request (req : HttpRequest) : Except PyExc Credentials :=
  if !pyStartsWith (headerGet req.headers "Authorization" "") "Bearer " then
    Except.error (valueError "Missing/invalid Authorization header. Use: Bearer <ACCESS_TOKEN>")
  else if pyStrip (pyDropChars 7 (headerGet req.headers "Authorization" "")) == "" then
    Except.error (valueError "Empty bearer token.")
  else
    Except.ok { token := pyStrip (pyDropChars 7 (headerGet req.headers "Authorization" ""))
                scopes := some ["https://www.googleapis.com/auth/analytics.readonly"] }

/-- `main.py` `ga4_list_accounts_oauth`: OPTIONS preflight, then a try block
whose generic `except` turns every exception (auth ValueError or vendor
error) into a 500 with `error` and `traceback` fields, always with CORS
headers. -/
def ga4_list_accounts_oauth (req : HttpRequest)
    (list_account_summaries : Except PyExc (List AccountSummary)) : AccountsOut :=
  if req.method == "OPTIONS" then
    { result := Except.ok { body := ResponseBody.empty, status := 204, headers := cors_headers }
      adminCalled := false }
  else
    match get_user_credentials_from_request req with
    | Except.error e =>
      { result := Except.ok { body := ResponseBody.errorWithTraceback e.msg e.traceback,
                              status := 500, headers := cors_headers }
        adminCalled := false }
    | Except.ok _ =>
      match list_account_summaries with
      | Except.error e =>
        { result := Except.ok { body := ResponseBody.errorWithTraceback e.msg e.traceback,
                                status := 500, headers := cors_headers }
          adminCalled := true }
      | Except.ok summaries =>
        { result := Except.ok { body := ResponseBody.accountsReport (accountsData summaries),
                                status := 200, headers := cors_headers }
          adminCalled := true }

/-- `main.py` `ga4_property_sessions_oauth`: OPTIONS preflight, 401 on an
auth ValueError, then the shared parameter/report logic with CORS headers. -/
def ga4_property_sessions_oauth (req : HttpRequest)
    (run_report : RunReportRequest → Except PyExc RunReportResponse) : SessionsOut :=
  if req.method == "OPTIONS" then
    { result := Except.ok { body := ResponseBody.empty, status := 204, headers := cors_headers }
      calls := [] }
  else
    match get_user_credentials_from_request req with
    | Except.error e =>
      { result := Except.ok { body := ResponseBody.errorMsg e.msg, status := 401, headers := cors_headers }
        calls := [] }
    | Except.ok _ => sessionsCore cors_headers req run_report

end MainPy

namespace MainOauth

/-- `main_oauth.py` `_get_user_credentials_from_request`: same checks as in
`main.py` but with different messages and no scopes hint. -/
def get_user_credentials_from_request (req : HttpRequest) : Except PyExc Credentials :=
  if !pyStartsWith (headerGet req.headers "Authorization" "") "Bearer " then
    Except.error (valueError "Missing or invalid Authorization header. Expected: \x27Authorization: Bearer <ACCESS_TOKEN>\x27")
  else if pyStrip (pyDropChars 7 (headerGet req.headers "Authorization" "")) == "" then
    Except.error (valueError "Empty bearer token in Authorization header.")
  else
    Except.ok { token := pyStrip (pyDropChars 7 (headerGet req.headers "Authorization" ""))
                scopes := none }

/-- `main_oauth.py` `ga4_list_accounts`: 401 on an auth ValueError, else the
accounts listing; a vendor exception propagates uncaught. -/
def ga4_list_accounts (req : HttpRequest)
    (list_account_summaries : Except PyExc (List AccountSummary)) : AccountsOut :=
  match get_user_credentials_from_request req with
  | Except.error e =>
    { result := Except.ok { body := ResponseBody.errorMsg e.msg, status := 401, headers := contentTypeHeaders }
      adminCalled := false }
  | Except.ok _ =>
    match list_account_summaries with
    | Except.error e => { result := Except.error e, adminCalled := true }
    | Except.ok summaries =>
      { result := Except.ok { body := ResponseBody.accountsReport (accountsData summaries),
                              status := 200, headers := contentTypeHeaders }
        adminCalled := true }

/-- `main_oauth.py` `ga4_property_sessions`: 401 on an auth ValueError, then
the shared parameter/report logic with plain JSON headers (no preflight). -/
def ga4_property_sessions (req : HttpRequest)
    (run_report : RunReportRequest → Except PyExc RunReportResponse) : SessionsOut :=
  match get_user_credentials_from_request req with
  | Except.error e =>
    { result := Except.ok { body := ResponseBody.errorMsg e.msg, status := 401, headers := contentTypeHeaders }
      calls := [] }
  | Except.ok _ => sessionsCore contentTypeHeaders req run_report

end MainOauth

namespace MainOld

/-- `main_old.py` `ga4_list_accounts`: no authentication; the accounts
listing with plain JSON headers; a vendor exception propagates uncaught. -/
def ga4_list_accounts (list_account_summaries : Except PyExc (List AccountSummary)) : AccountsOut :=
  match list_account_summaries with
  | Except.error e => { result := Except.error e, adminCalled := true }
  | Except.ok summaries =>
    { result := Except.ok { body := ResponseBody.accountsReport (accountsData summaries),
                            status := 200, headers := contentTypeHeaders }
      adminCalled := true }

/-- `main_old.py` `ga4_property_sessions`: no authentication; the shared
parameter/report logic with plain JSON headers. -/
def ga4_property_sessions (req : HttpRequest)
    (run_report : RunReportRequest → Except PyExc RunReportResponse) : SessionsOut :=
  sessionsCore contentTypeHeaders req run_report

end MainOld

namespace SessionsPy

/-- `sessions.py` `get_sessions_for_property`: builds the run-report request
for the given property and dates (defaults from the Python signature),
issues it and extracts the session count. -/
def get_sessions_for_property
    (run_report : RunReportRequest → Except PyExc RunReportResponse)
    (property_id : String)
    (start_date : String := "2025-12-01") (end_date : String := "today") : Except PyExc Int :=
  match run_report (mkRunReportRequest property_id start_date end_date) with
  | Except.error e => Except.error e
  | Except.ok response => extractSessions response

end SessionsPy

namespace AccountsPy

/-- `accounts.py` `main`: the JSON object printed for a given list of vendor
account summaries. -/
def mainOutput (summaries : List AccountSummary) : ResponseBody :=
  ResponseBody.accountsReport (accountsData summaries)

end AccountsPy

/-- Concrete authorized request used by witnesses: a GET with a bearer
token and `property_id` in the query string. -/
def tokReq : HttpRequest :=
  { method := "GET", headers := [("Authorization", "Bearer abc")],
    args := [("property_id", "182279779")], jsonBody := none }

/-- Concrete one-row vendor response used by witnesses. -/
def respOne : RunReportResponse :=
  { rows := [{ metric_values := [{ value := "5106379" }] }] }

/-- Vendor oracle used by witnesses: always returns `respOne`. -/
def rrOk : RunReportRequest → Except PyExc RunReportResponse :=
  fun _ => Except.ok respOne



-- ---------------------------------------------------------------------------
-- Helper lemmas: authentication
-- ---------------------------------------------------------------------------

/-- A valid bearer header makes the `main.py` auth helper succeed. -/
lemma mainPy_auth_ok (req : HttpRequest) (h : validBearer req = true) :
    ∃ c, MainPy.get_user_credentials_from_request req = Except.ok c := by
  unfold validBearer at h
  rw [Bool.and_eq_true] at h
  obtain ⟨h1, h2⟩ := h
  have h2' : (pyStrip (pyDropChars 7 (headerGet req.headers "Authorization" "")) == "") = false := by
    simpa using h2
  refine ⟨{ token := pyStrip (pyDropChars 7 (headerGet req.headers "Authorization" ""))
            scopes := some ["https://www.googleapis.com/auth/analytics.readonly"] }, ?_⟩
  unfold MainPy.get_user_credentials_from_request
  rw [h1]
  simp [h2']

/-- A valid bearer header makes the `main_oauth.py` auth helper succeed. -/
lemma mainOauth_auth_ok (req : HttpRequest) (h : validBearer req = true) :
    ∃ c, MainOauth.get_user_credentials_from_request req = Except.ok c := by
  unfold validBearer at h
  rw [Bool.and_eq_true] at h
  obtain ⟨h1, h2⟩ := h
  have h2' : (pyStrip (pyDropChars 7 (headerGet req.headers "Authorization" "")) == "") = false := by
    simpa using h2
  refine ⟨{ token := pyStrip (pyDropChars 7 (headerGet req.headers "Authorization" ""))
            scopes := none }, ?_⟩
  unfold MainOauth.get_user_credentials_from_request
  rw [h1]
  simp [h2']

/-- An invalid bearer header makes the `main.py` auth helper raise. -/
lemma mainPy_auth_err (req : HttpRequest) (h : validBearer req = false) :
    ∃ e, MainPy.get_user_credentials_from_request req = Except.error e := by
  unfold validBearer at h
  cases hs : pyStartsWith (headerGet req.headers "Authorization" "") "Bearer " with
  | false =>
    refine ⟨valueError "Missing/invalid Authorization header. Use: Bearer <ACCESS_TOKEN>", ?_⟩
    unfold MainPy.get_user_credentials_from_request
    rw [hs]
    simp
  | true =>
    rw [hs, Bool.true_and] at h
    have h' : (pyStrip (pyDropChars 7 (headerGet req.headers "Authorization" "")) == "") = true := by
      simpa using h
    refine ⟨valueError "Empty bearer token.", ?_⟩
    unfold MainPy.get_user_credentials_from_request
    rw [hs]
    simp [h']

/-- An invalid bearer header makes the `main_oauth.py` auth helper raise. -/
lemma mainOauth_auth_err (req : HttpRequest) (h : validBearer req = false) :
    ∃ e, MainOauth.get_user_credentials_from_request req = Except.error e := by
  unfold validBearer at h
  cases hs : pyStartsWith (headerGet req.headers "Authorization" "") "Bearer " with
  | false =>
    refine ⟨valueError "Missing or invalid Authorization header. Expected: \x27Authorization: Bearer <ACCESS_TOKEN>\x27", ?_⟩
    unfold MainOauth.get_user_credentials_from_request
    rw [hs]
    simp
  | true =>
    rw [hs, Bool.true_and] at h
    have h' : (pyStrip (pyDropChars 7 (headerGet req.headers "Authorization" "")) == "") = true := by
      simpa using h
    refine ⟨valueError "Empty bearer token in Authorization header.", ?_⟩
    unfold MainOauth.get_user_credentials_from_request
    rw [hs]
    simp [h']

/-- The claim-level description of a bad Authorization header (does not start
with BEARER-SPACE, or strips to the empty token) makes `validBearer` false. -/
lemma validBearer_false_of_bad (req : HttpRequest)
    (hb : pyStartsWith (headerGet req.headers "Authorization" "") "Bearer " = false
        ∨ pyStrip (pyDropChars 7 (headerGet req.headers "Authorization" "")) = "") :
    validBearer req = false := by
  unfold validBearer
  rcases hb with h | h
  · simp [h]
  · simp [h]

-- ---------------------------------------------------------------------------
-- Helper lemmas: parameter handling and the shared report core
-- ---------------------------------------------------------------------------

/-- When the query string carries a truthy `property_id`, the JSON body is
never consulted: the parameters are the raw query-string lookups. -/
lemma sessionParams_args_only (req : HttpRequest)
    (hp : truthy (argsGet req "property_id") = true) :
    sessionParams req =
      { property_id := argsGet req "property_id"
        start_date := argsGet req "start_date"
        end_date := argsGet req "end_date" } := by
  unfold sessionParams
  simp [hp]

/-- A `property_id` falsy in both the query string and the JSON body stays
falsy after parameter merging. -/
lemma sessionParams_prop_false (req : HttpRequest)
    (hp1 : truthy (argsGet req "property_id") = false)
    (hp2 : truthy (lookupStr (bodyDict req) "property_id") = false) :
    truthy (sessionParams req).property_id = false := by
  unfold sessionParams
  simp only [hp1, Bool.not_false, if_true]
  unfold pyOr
  simp [hp1, hp2]

/-- Dates absent from both the query string and the JSON body give the
default range from `"30daysAgo"` to `"today"`. -/
lemma defaults_of_absent (req : HttpRequest)
    (h1 : argsGet req "start_date" = none) (h2 : lookupStr (bodyDict req) "start_date" = none)
    (h3 : argsGet req "end_date" = none) (h4 : lookupStr (bodyDict req) "end_date" = none) :
    coreStart req = "30daysAgo" ∧ coreEnd req = "today" := by
  unfold coreStart coreEnd sessionParams
  cases hp : truthy (argsGet req "property_id") <;>
    simp [hp, h1, h2, h3, h4, pyOr, pyOrD, truthy]

/-- With a falsy property id the core returns the exact 400 response and
issues no vendor call. -/
lemma sessionsCore_400 (hdrs : List (String × String)) (req : HttpRequest)
    (rr : RunReportRequest → Except PyExc RunReportResponse)
    (hp : truthy (sessionParams req).property_id = false) :
    sessionsCore hdrs req rr =
      { result := Except.ok { body := missingPropBody, status := 400, headers := hdrs }
        calls := [] } := by
  unfold sessionsCore
  simp [hp]

/-- A vendor exception propagates out of the core after the one issued call. -/
lemma sessionsCore_err_vendor (hdrs : List (String × String)) (req : HttpRequest)
    (rr : RunReportRequest → Except PyExc RunReportResponse) (e : PyExc)
    (hp : truthy (sessionParams req).property_id = true)
    (hr : rr (coreRequest req) = Except.error e) :
    sessionsCore hdrs req rr = { result := Except.error e, calls := [coreRequest req] } := by
  unfold sessionsCore
  simp [hp, hr]

/-- An extraction failure (IndexError or ValueError from `int(...)`)
propagates out of the core after the one issued call. -/
lemma sessionsCore_err_extract (hdrs : List (String × String)) (req : HttpRequest)
    (rr : RunReportRequest → Except PyExc RunReportResponse)
    (resp : RunReportResponse) (e : PyExc)
    (hp : truthy (sessionParams req).property_id = true)
    (hr : rr (coreRequest req) = Except.ok resp)
    (he : extractSessions resp = Except.error e) :
    sessionsCore hdrs req rr = { result := Except.error e, calls := [coreRequest req] } := by
  unfold sessionsCore
  simp [hp, hr, he]

/-- With a truthy property id, a successful vendor call and a successful
extraction, the core returns the 200 report. -/
lemma sessionsCore_ok (hdrs : List (String × String)) (req : HttpRequest)
    (rr : RunReportRequest → Except PyExc RunReportResponse)
    (resp : RunReportResponse) (n : Int)
    (hp : truthy (sessionParams req).property_id = true)
    (hr : rr (coreRequest req) = Except.ok resp)
    (he : extractSessions resp = Except.ok n) :
    sessionsCore hdrs req rr =
      { result := Except.ok { body := sessionsResult (corePid req) (coreStart req) (coreEnd req) n,
                              status := 200, headers := hdrs }
        calls := [coreRequest req] } := by
  unfold sessionsCore
  simp [hp, hr, he]

/-- With a truthy property id the core always issues exactly one vendor
call, namely `coreRequest req`. -/
lemma sessionsCore_calls (hdrs : List (String × String)) (req : HttpRequest)
    (rr : RunReportRequest → Except PyExc RunReportResponse)
    (hp : truthy (sessionParams req).property_id = true) :
    (sessionsCore hdrs req rr).calls = [coreRequest req] := by
  cases hr : rr (coreRequest req) with
  | error e => rw [sessionsCore_err_vendor hdrs req rr e hp hr]
  | ok resp =>
    cases he : extractSessions resp with
    | error e => rw [sessionsCore_err_extract hdrs req rr resp e hp hr he]
    | ok n => rw [sessionsCore_ok hdrs req rr resp n hp hr he]

/-- Every response the core returns carries exactly the header set it was
given. -/
lemma sessionsCore_headers (hdrs : List (String × String)) (req : HttpRequest)
    (rr : RunReportRequest → Except PyExc RunReportResponse) (r : HttpResponse)
    (h : (sessionsCore hdrs req rr).result = Except.ok r) : r.headers = hdrs := by
  cases hp : truthy (sessionParams req).property_id with
  | false =>
    rw [sessionsCore_400 hdrs req rr hp] at h
    cases h
    rfl
  | true =>
    cases hr : rr (coreRequest req) with
    | error e => rw [sessionsCore_err_vendor hdrs req rr e hp hr] at h; cases h
    | ok resp =>
      cases he : extractSessions resp with
      | error e => rw [sessionsCore_err_extract hdrs req rr resp e hp hr he] at h; cases h
      | ok n =>
        rw [sessionsCore_ok hdrs req rr resp n hp hr he] at h
        cases h
        rfl

/-- Under a succeeding auth check the `main_oauth.py` sessions handler is the
shared core with plain JSON headers. -/
lemma mainOauth_sessions_eq (req : HttpRequest)
    (rr : RunReportRequest → Except PyExc RunReportResponse) (c : Credentials)
    (hc : MainOauth.get_user_credentials_from_request req = Except.ok c) :
    MainOauth.ga4_property_sessions req rr = sessionsCore contentTypeHeaders req rr := by
  unfold MainOauth.ga4_property_sessions
  rw [hc]

/-- Under a failing auth check the `main_oauth.py` sessions handler returns
the 401 error response without vendor calls. -/
lemma mainOauth_sessions_401 (req : HttpRequest)
    (rr : RunReportRequest → Except PyExc RunReportResponse) (e : PyExc)
    (he : MainOauth.get_user_credentials_from_request req = Except.error e) :
    MainOauth.ga4_property_sessions req rr =
      { result := Except.ok { body := ResponseBody.errorMsg e.msg, status := 401,
                              headers := contentTypeHeaders }
        calls := [] } := by
  unfold MainOauth.ga4_property_sessions
  rw [he]

/-- For a non-OPTIONS request under a succeeding auth check the `main.py`
sessions handler is the shared core with CORS headers. -/
lemma mainPy_sessions_eq (req : HttpRequest)
    (rr : RunReportRequest → Except PyExc RunReportResponse) (c : Credentials)
    (hm : req.method ≠ "OPTIONS")
    (hc : MainPy.get_user_credentials_from_request req = Except.ok c) :
    MainPy.ga4_property_sessions_oauth req rr = sessionsCore MainPy.cors_headers req rr := by
  have hm' : (req.method == "OPTIONS") = false := by simpa using hm
  unfold MainPy.ga4_property_sessions_oauth
  rw [hm']
  simp only [Bool.false_eq_true, if_false]
  rw [hc]

/-- For a non-OPTIONS request under a failing auth check the `main.py`
sessions handler returns the 401 error response without vendor calls. -/
lemma mainPy_sessions_401 (req : HttpRequest)
    (rr : RunReportRequest → Except PyExc RunReportResponse) (e : PyExc)
    (hm : req.method ≠ "OPTIONS")
    (he : MainPy.get_user_credentials_from_request req = Except.error e) :
    MainPy.ga4_property_sessions_oauth req rr =
      { result := Except.ok { body := ResponseBody.errorMsg e.msg, status := 401,
                              headers := MainPy.cors_headers }
        calls := [] } := by
  have hm' : (req.method == "OPTIONS") = false := by simpa using hm
  unfold MainPy.ga4_property_sessions_oauth
  rw [hm']
  simp only [Bool.false_eq_true, if_false]
  rw [he]

/-- A successful extraction result is exactly what the claim states for the
session count: `0` when the response has no rows, else the parsed integer
value of the first metric of the first row. -/
lemma extractSessions_spec (resp : RunReportResponse) (n : Int)
    (hS : extractSessions resp = Except.ok n) :
    (resp.rows = [] → n = 0)
    ∧ (∀ r rest, resp.rows = r :: rest →
        ∃ mv mvs, r.metric_values = mv :: mvs ∧ pyInt mv.value = some n) := by
  obtain ⟨rows⟩ := resp
  cases rows with
  | nil =>
    constructor
    · intro _
      exact (Except.ok.inj hS).symm
    · intro r rest hr
      simp at hr
  | cons r0 rest0 =>
    constructor
    · intro h0
      simp at h0
    · intro r' rest' hr
      have h1 : r' = r0 := by injection hr with ha hb; exact ha.symm
      subst h1
      obtain ⟨mvs⟩ := r'
      cases mvs with
      | nil => exact Except.noConfusion hS
      | cons mv mvtail =>
        have h2 : extractSessions ⟨{ metric_values := mv :: mvtail } :: rest0⟩ =
            (match pyInt mv.value with
             | some m => Except.ok m
             | none => Except.error (valueError ("invalid literal for int() with base 10: " ++ mv.value))) := rfl
        rw [h2] at hS
        cases hpi : pyInt mv.value with
        | none => rw [hpi] at hS; exact Except.noConfusion hS
        | some m =>
          rw [hpi] at hS
          cases hS
          exact ⟨mv, mvtail, rfl, hpi⟩

/-- C1: for every vendor `run_report` response (whose first metric value
parses as an integer when rows are present), the sessions functions return
status 200 with `metrics.sessions` equal to the parsed integer value of the
first metric of the first row, and `0` when the response has no rows; the
vendor-reported count is passed through unchanged. -/
theorem c1_sessions_passthrough (req : HttpRequest) (resp : RunReportResponse) (n : Int)
    (hA : validBearer req = true)
    (hp : truthy (sessionParams req).property_id = true)
    (hS : extractSessions resp = Except.ok n) :
    ((MainOauth.ga4_property_sessions req (fun _ => Except.ok resp)).result =
      Except.ok { body := sessionsResult (corePid req) (coreStart req) (coreEnd req) n,
                  status := 200, headers := contentTypeHeaders })
    ∧ ((MainOld.ga4_property_sessions req (fun _ => Except.ok resp)).result =
      Except.ok { body := sessionsResult (corePid req) (coreStart req) (coreEnd req) n,
                  status := 200, headers := contentTypeHeaders })
    ∧ (∀ pid sd ed, SessionsPy.get_sessions_for_property (fun _ => Except.ok resp) pid sd ed =
        Except.ok n)
    ∧ (resp.rows = [] → n = 0)
    ∧ (∀ r rest, resp.rows = r :: rest →
        ∃ mv mvs, r.metric_values = mv :: mvs ∧ pyInt mv.value = some n) := by
  obtain ⟨c, hc⟩ := mainOauth_auth_ok req hA
  refine ⟨?_, ?_, ?_, (extractSessions_spec resp n hS).1, (extractSessions_spec resp n hS).2⟩
  · rw [mainOauth_sessions_eq req _ c hc,
      sessionsCore_ok contentTypeHeaders req _ resp n hp rfl hS]
  · unfold MainOld.ga4_property_sessions
    rw [sessionsCore_ok contentTypeHeaders req _ resp n hp rfl hS]
  · intro pid sd ed
    exact hS

/-- Witness for C1 at a concrete authorized request and one-row response. -/
theorem c1_sessions_passthrough_witness :
    validBearer tokReq = true
    ∧ truthy (sessionParams tokReq).property_id = true
    ∧ extractSessions respOne = Except.ok 5106379
    ∧ (MainOauth.ga4_property_sessions tokReq (fun _ => Except.ok respOne)).result =
        Except.ok { body := sessionsResult "182279779" "30daysAgo" "today" 5106379,
                    status := 200, headers := contentTypeHeaders } :=
  ⟨by decide, by decide, rfl,
    (c1_sessions_passthrough tokReq respOne 5106379 (by decide) (by decide) rfl).1⟩

/-- With a truthy property id, any returned (non-raised) response of the core
is the 200 report whose body is the sessions result for the effective
parameters. -/
lemma sessionsCore_ok_shape (hdrs : List (String × String)) (req : HttpRequest)
    (rr : RunReportRequest → Except PyExc RunReportResponse) (r : HttpResponse)
    (hp : truthy (sessionParams req).property_id = true)
    (h : (sessionsCore hdrs req rr).result = Except.ok r) :
    r.status = 200 ∧ ∃ n, r.body = sessionsResult (corePid req) (coreStart req) (coreEnd req) n := by
  cases hr0 : rr (coreRequest req) with
  | error e =>
    rw [sessionsCore_err_vendor hdrs req rr e hp hr0] at h
    exact Except.noConfusion h
  | ok resp =>
    cases he : extractSessions resp with
    | error e =>
      rw [sessionsCore_err_extract hdrs req rr resp e hp hr0 he] at h
      exact Except.noConfusion h
    | ok n =>
      rw [sessionsCore_ok hdrs req rr resp n hp hr0 he] at h
      cases h
      exact ⟨rfl, n, rfl⟩

/-- C2: a request that supplies `property_id` but neither `start_date` nor
`end_date` (in query string or JSON body) gets the default range: the one
vendor `RunReportRequest` issued carries exactly the range from
`"30daysAgo"` to `"today"`, and any 200 body echoes those two strings. -/
theorem c2_default_dates (req : HttpRequest)
    (rr : RunReportRequest → Except PyExc RunReportResponse)
    (hA : validBearer req = true) (hm : req.method ≠ "OPTIONS")
    (hp : truthy (sessionParams req).property_id = true)
    (h1 : argsGet req "start_date" = none) (h2 : lookupStr (bodyDict req) "start_date" = none)
    (h3 : argsGet req "end_date" = none) (h4 : lookupStr (bodyDict req) "end_date" = none) :
    ((MainOauth.ga4_property_sessions req rr).calls =
      [mkRunReportRequest (corePid req) "30daysAgo" "today"])
    ∧ ((MainPy.ga4_property_sessions_oauth req rr).calls =
      [mkRunReportRequest (corePid req) "30daysAgo" "today"])
    ∧ ((MainOld.ga4_property_sessions req rr).calls =
      [mkRunReportRequest (corePid req) "30daysAgo" "today"])
    ∧ (∀ r, (MainOauth.ga4_property_sessions req rr).result = Except.ok r →
        r.status = 200 ∧ ∃ n, r.body = sessionsResult (corePid req) "30daysAgo" "today" n)
    ∧ (∀ r, (MainPy.ga4_property_sessions_oauth req rr).result = Except.ok r →
        r.status = 200 ∧ ∃ n, r.body = sessionsResult (corePid req) "30daysAgo" "today" n) := by
  obtain ⟨hsd, hed⟩ := defaults_of_absent req h1 h2 h3 h4
  obtain ⟨c, hc⟩ := mainOauth_auth_ok req hA
  obtain ⟨c', hc'⟩ := mainPy_auth_ok req hA
  have hreq : coreRequest req = mkRunReportRequest (corePid req) "30daysAgo" "today" := by
    unfold coreRequest
    rw [hsd, hed]
  refine ⟨?_, ?_, ?_, ?_, ?_⟩
  · rw [mainOauth_sessions_eq req rr c hc, sessionsCore_calls contentTypeHeaders req rr hp, hreq]
  · rw [mainPy_sessions_eq req rr c' hm hc', sessionsCore_calls MainPy.cors_headers req rr hp, hreq]
  · unfold MainOld.ga4_property_sessions
    rw [sessionsCore_calls contentTypeHeaders req rr hp, hreq]
  · intro r hr
    rw [mainOauth_sessions_eq req rr c hc] at hr
    obtain ⟨hst, n, hbody⟩ := sessionsCore_ok_shape contentTypeHeaders req rr r hp hr
    rw [hsd, hed] at hbody
    exact ⟨hst, n, hbody⟩
  · intro r hr
    rw [mainPy_sessions_eq req rr c' hm hc'] at hr
    obtain ⟨hst, n, hbody⟩ := sessionsCore_ok_shape MainPy.cors_headers req rr r hp hr
    rw [hsd, hed] at hbody
    exact ⟨hst, n, hbody⟩

/-- Witness for C2 at a concrete request carrying only `property_id`. -/
theorem c2_default_dates_witness :
    validBearer tokReq = true
    ∧ argsGet tokReq "start_date" = none
    ∧ lookupStr (bodyDict tokReq) "start_date" = none
    ∧ (MainOauth.ga4_property_sessions tokReq rrOk).calls =
        [mkRunReportRequest "182279779" "30daysAgo" "today"] :=
  ⟨by decide, rfl, rfl,
    (c2_default_dates tokReq rrOk (by decide) (by decide) (by decide) rfl rfl rfl rfl).1⟩

/-- Request with `property_id` in the query string and a `start_date` only in
the JSON body. -/
def reqC3 : HttpRequest :=
  { method := "GET", headers := [("Authorization", "Bearer abc")],
    args := [("property_id", "182279779")],
    jsonBody := some [("start_date", "2025-01-01")] }

/-- C3 counterexample: with `property_id` in the query string, a `start_date`
supplied only in the JSON body is NOT used — the issued vendor request
carries the default `"30daysAgo"`, refuting the claim as stated. -/
theorem c3_counterexample :
    (MainOauth.ga4_property_sessions reqC3 rrOk).calls =
      [mkRunReportRequest "182279779" "30daysAgo" "today"]
    ∧ lookupStr (bodyDict reqC3) "start_date" = some "2025-01-01"
    ∧ truthy (argsGet reqC3 "property_id") = true
    ∧ (MainOauth.ga4_property_sessions reqC3 rrOk).calls ≠
      [mkRunReportRequest "182279779" "2025-01-01" "today"] :=
  ⟨rfl, rfl, rfl, by decide⟩

/-- C3 (amended): each parameter is taken from the query string when present
there, and the JSON body is consulted only when `property_id` is falsy in
the query string, in which case each of the three parameters falls back to
the body.  Concretely: (i) with a truthy query-string `property_id` the
issued vendor request is built from the query-string lookups alone, whatever
the JSON body contains; (ii) with a falsy query-string `property_id` every
parameter is the query value when truthy, else the body value, and the
issued vendor request is built from those merged values; (iii) a truthy
(present, nonempty) date value is used as supplied, not defaulted. -/
theorem c3_amended (req : HttpRequest) (b : Option (List (String × String)))
    (rr : RunReportRequest → Except PyExc RunReportResponse)
    (hA : validBearer req = true) (hm : req.method ≠ "OPTIONS") :
    (truthy (argsGet req "property_id") = true →
      ((MainOauth.ga4_property_sessions { req with jsonBody := b } rr).calls =
        [mkRunReportRequest ((argsGet req "property_id").getD "")
          (pyOrD (argsGet req "start_date") "30daysAgo")
          (pyOrD (argsGet req "end_date") "today")])
      ∧ ((MainPy.ga4_property_sessions_oauth { req with jsonBody := b } rr).calls =
        [mkRunReportRequest ((argsGet req "property_id").getD "")
          (pyOrD (argsGet req "start_date") "30daysAgo")
          (pyOrD (argsGet req "end_date") "today")])
      ∧ ((MainOld.ga4_property_sessions { req with jsonBody := b } rr).calls =
        [mkRunReportRequest ((argsGet req "property_id").getD "")
          (pyOrD (argsGet req "start_date") "30daysAgo")
          (pyOrD (argsGet req "end_date") "today")]))
    ∧ (truthy (argsGet req "property_id") = false →
      sessionParams req =
        { property_id := pyOr (argsGet req "property_id") (lookupStr (bodyDict req) "property_id")
          start_date := pyOr (argsGet req "start_date") (lookupStr (bodyDict req) "start_date")
          end_date := pyOr (argsGet req "end_date") (lookupStr (bodyDict req) "end_date") }
      ∧ (truthy (pyOr (argsGet req "property_id") (lookupStr (bodyDict req) "property_id")) = true →
        ((MainOauth.ga4_property_sessions req rr).calls =
          [mkRunReportRequest
            ((pyOr (argsGet req "property_id") (lookupStr (bodyDict req) "property_id")).getD "")
            (pyOrD (pyOr (argsGet req "start_date") (lookupStr (bodyDict req) "start_date")) "30daysAgo")
            (pyOrD (pyOr (argsGet req "end_date") (lookupStr (bodyDict req) "end_date")) "today")])
        ∧ ((MainPy.ga4_property_sessions_oauth req rr).calls =
          [mkRunReportRequest
            ((pyOr (argsGet req "property_id") (lookupStr (bodyDict req) "property_id")).getD "")
            (pyOrD (pyOr (argsGet req "start_date") (lookupStr (bodyDict req) "start_date")) "30daysAgo")
            (pyOrD (pyOr (argsGet req "end_date") (lookupStr (bodyDict req) "end_date")) "today")])
        ∧ ((MainOld.ga4_property_sessions req rr).calls =
          [mkRunReportRequest
            ((pyOr (argsGet req "property_id") (lookupStr (bodyDict req) "property_id")).getD "")
            (pyOrD (pyOr (argsGet req "start_date") (lookupStr (bodyDict req) "start_date")) "30daysAgo")
            (pyOrD (pyOr (argsGet req "end_date") (lookupStr (bodyDict req) "end_date")) "today")])))
    ∧ (∀ (a : Option String) (d : String), truthy a = true → pyOrD a d = a.getD "") := by
  refine ⟨?_, ?_, ?_⟩
  · intro hp
    have hp' : truthy (argsGet { req with jsonBody := b } "property_id") = true := hp
    have hsp := sessionParams_args_only { req with jsonBody := b } hp'
    have hpT : truthy (sessionParams { req with jsonBody := b }).property_id = true := by
      rw [hsp]; exact hp
    have hreq : coreRequest { req with jsonBody := b } =
        mkRunReportRequest ((argsGet req "property_id").getD "")
          (pyOrD (argsGet req "start_date") "30daysAgo")
          (pyOrD (argsGet req "end_date") "today") := by
      unfold coreRequest corePid coreStart coreEnd
      rw [hsp]
      exact rfl
    obtain ⟨c, hc⟩ := mainOauth_auth_ok { req with jsonBody := b } hA
    obtain ⟨c', hc'⟩ := mainPy_auth_ok { req with jsonBody := b } hA
    have hm' : ({ req with jsonBody := b } : HttpRequest).method ≠ "OPTIONS" := hm
    refine ⟨?_, ?_, ?_⟩
    · rw [mainOauth_sessions_eq _ rr c hc, sessionsCore_calls contentTypeHeaders _ rr hpT, hreq]
    · rw [mainPy_sessions_eq _ rr c' hm' hc', sessionsCore_calls MainPy.cors_headers _ rr hpT, hreq]
    · unfold MainOld.ga4_property_sessions
      rw [sessionsCore_calls contentTypeHeaders _ rr hpT, hreq]
  · intro hp
    have hsp2 : sessionParams req =
        { property_id := pyOr (argsGet req "property_id") (lookupStr (bodyDict req) "property_id")
          start_date := pyOr (argsGet req "start_date") (lookupStr (bodyDict req) "start_date")
          end_date := pyOr (argsGet req "end_date") (lookupStr (bodyDict req) "end_date") } := by
      unfold sessionParams
      simp [hp]
    refine ⟨hsp2, ?_⟩
    intro hpm
    have hpT : truthy (sessionParams req).property_id = true := by
      rw [hsp2]; exact hpm
    have hreq2 : coreRequest req =
        mkRunReportRequest
          ((pyOr (argsGet req "property_id") (lookupStr (bodyDict req) "property_id")).getD "")
          (pyOrD (pyOr (argsGet req "start_date") (lookupStr (bodyDict req) "start_date")) "30daysAgo")
          (pyOrD (pyOr (argsGet req "end_date") (lookupStr (bodyDict req) "end_date")) "today") := by
      unfold coreRequest corePid coreStart coreEnd
      rw [hsp2]
    obtain ⟨c, hc⟩ := mainOauth_auth_ok req hA
    obtain ⟨c', hc'⟩ := mainPy_auth_ok req hA
    refine ⟨?_, ?_, ?_⟩
    · rw [mainOauth_sessions_eq req rr c hc, sessionsCore_calls contentTypeHeaders req rr hpT, hreq2]
    · rw [mainPy_sessions_eq req rr c' hm hc', sessionsCore_calls MainPy.cors_headers req rr hpT, hreq2]
    · unfold MainOld.ga4_property_sessions
      rw [sessionsCore_calls contentTypeHeaders req rr hpT, hreq2]
  · intro a d ht
    cases a with
    | none => simp [truthy] at ht
    | some s =>
      have hs : (s == "") = false := by simpa [truthy] using ht
      simp [pyOrD, hs]

/-- Request with `property_id` and `start_date` only in the JSON body. -/
def reqBodyProp : HttpRequest :=
  { method := "GET", headers := [("Authorization", "Bearer abc")], args := [],
    jsonBody := some [("property_id", "182279779"), ("start_date", "2025-01-01")] }

/-- Witness for the amended C3 at two concrete requests: one with
`property_id` in the query string and dates only in the JSON body (the body
dates are ignored and the range is defaulted), and one with `property_id`
and `start_date` only in the JSON body (the body values are used). -/
theorem c3_amended_witness :
    validBearer tokReq = true
    ∧ truthy (argsGet tokReq "property_id") = true
    ∧ (MainOauth.ga4_property_sessions
        { tokReq with jsonBody := some [("start_date", "2025-01-01"), ("end_date", "2025-02-02")] }
        rrOk).calls = [mkRunReportRequest "182279779" "30daysAgo" "today"]
    ∧ truthy (argsGet reqBodyProp "property_id") = false
    ∧ (MainOauth.ga4_property_sessions reqBodyProp rrOk).calls =
        [mkRunReportRequest "182279779" "2025-01-01" "today"] :=
  ⟨by decide, by decide,
    ((c3_amended tokReq (some [("start_date", "2025-01-01"), ("end_date", "2025-02-02")]) rrOk
      (by decide) (by decide)).1 (by decide)).1,
    by decide,
    ((((c3_amended reqBodyProp none rrOk (by decide) (by decide)).2.1 (by decide)).2 (by decide)).1)⟩

/-- A CORS preflight request with no Authorization header. -/
def reqOptions : HttpRequest :=
  { method := "OPTIONS", headers := [], args := [], jsonBody := none }

/-- A plain GET request with no Authorization header, no query arguments and
no JSON body. -/
def reqBare : HttpRequest :=
  { method := "GET", headers := [], args := [], jsonBody := none }

/-- C4 counterexample: an OPTIONS request whose Authorization header does not
start with BEARER-SPACE gets 204 (preflight), not 401, from `main.py`
`ga4_property_sessions_oauth` — refuting the claim as stated for that
handler. -/
theorem c4_counterexample :
    pyStartsWith (headerGet reqOptions.headers "Authorization" "") "Bearer " = false
    ∧ (MainPy.ga4_property_sessions_oauth reqOptions rrOk).result =
        Except.ok { body := ResponseBody.empty, status := 204, headers := MainPy.cors_headers }
    ∧ (204 : Nat) ≠ 401 :=
  ⟨by decide, rfl, by decide⟩

/-- C4 (amended): a request whose Authorization header does not start with
BEARER-SPACE or whose bearer token is empty after stripping gets a 401 with
an error field and no vendor SDK call from the bearer handlers — for
the handler `ga4_property_sessions_oauth` of `main.py` only when the request is not an
OPTIONS preflight. -/
theorem c4_amended (req : HttpRequest)
    (la : Except PyExc (List AccountSummary))
    (rr : RunReportRequest → Except PyExc RunReportResponse)
    (hb : pyStartsWith (headerGet req.headers "Authorization" "") "Bearer " = false
        ∨ pyStrip (pyDropChars 7 (headerGet req.headers "Authorization" "")) = "") :
    (∃ m, (MainOauth.ga4_list_accounts req la).result =
        Except.ok { body := ResponseBody.errorMsg m, status := 401, headers := contentTypeHeaders }
      ∧ (MainOauth.ga4_list_accounts req la).adminCalled = false)
    ∧ (∃ m, (MainOauth.ga4_property_sessions req rr).result =
        Except.ok { body := ResponseBody.errorMsg m, status := 401, headers := contentTypeHeaders }
      ∧ (MainOauth.ga4_property_sessions req rr).calls = [])
    ∧ (req.method ≠ "OPTIONS" →
        ∃ m, (MainPy.ga4_property_sessions_oauth req rr).result =
          Except.ok { body := ResponseBody.errorMsg m, status := 401, headers := MainPy.cors_headers }
        ∧ (MainPy.ga4_property_sessions_oauth req rr).calls = []) := by
  have hv := validBearer_false_of_bad req hb
  obtain ⟨e₂, he₂⟩ := mainOauth_auth_err req hv
  obtain ⟨e₁, he₁⟩ := mainPy_auth_err req hv
  refine ⟨⟨e₂.msg, ?_, ?_⟩, ?_, ?_⟩
  · unfold MainOauth.ga4_list_accounts
    rw [he₂]
  · unfold MainOauth.ga4_list_accounts
    rw [he₂]
  · rw [mainOauth_sessions_401 req rr e₂ he₂]
    exact ⟨e₂.msg, rfl, rfl⟩
  · intro hm
    rw [mainPy_sessions_401 req rr e₁ hm he₁]
    exact ⟨e₁.msg, rfl, rfl⟩

/-- Witness for the amended C4 at a concrete request with no Authorization
header. -/
theorem c4_amended_witness :
    pyStartsWith (headerGet reqBare.headers "Authorization" "") "Bearer " = false
    ∧ (∃ m, (MainOauth.ga4_property_sessions reqBare rrOk).result =
        Except.ok { body := ResponseBody.errorMsg m, status := 401, headers := contentTypeHeaders }
      ∧ (MainOauth.ga4_property_sessions reqBare rrOk).calls = []) :=
  ⟨by decide, (c4_amended reqBare (Except.ok []) rrOk (Or.inl (by decide))).2.1⟩

/-- C5 counterexample: a request with no `property_id` anywhere but also no
Authorization header gets 401, not 400, from the bearer sessions handlers —
refuting the claim as stated (the missing-parameter check is only reached
after authentication). -/
theorem c5_counterexample :
    truthy (argsGet reqBare "property_id") = false
    ∧ truthy (lookupStr (bodyDict reqBare) "property_id") = false
    ∧ (MainOauth.ga4_property_sessions reqBare rrOk).result =
        Except.ok { body := ResponseBody.errorMsg "Missing or invalid Authorization header. Expected: \x27Authorization: Bearer <ACCESS_TOKEN>\x27",
                    status := 401, headers := contentTypeHeaders }
    ∧ (401 : Nat) ≠ 400 :=
  ⟨rfl, rfl, rfl, by decide⟩

/-- C5 (amended): when `property_id` is falsy in both the query string and
the JSON body, the sessions handlers return the exact 400 body
`Missing required parameter: property_id` and never call the vendor Data
API — unconditionally for `main_old.py`, and under a valid bearer header
(and, for `main.py`, a non-OPTIONS method) for the bearer handlers. -/
theorem c5_amended (req : HttpRequest)
    (rr : RunReportRequest → Except PyExc RunReportResponse)
    (hp1 : truthy (argsGet req "property_id") = false)
    (hp2 : truthy (lookupStr (bodyDict req) "property_id") = false) :
    (MainOld.ga4_property_sessions req rr =
      { result := Except.ok { body := missingPropBody, status := 400, headers := contentTypeHeaders }
        calls := [] })
    ∧ (validBearer req = true →
        MainOauth.ga4_property_sessions req rr =
          { result := Except.ok { body := missingPropBody, status := 400, headers := contentTypeHeaders }
            calls := [] })
    ∧ (validBearer req = true → req.method ≠ "OPTIONS" →
        MainPy.ga4_property_sessions_oauth req rr =
          { result := Except.ok { body := missingPropBody, status := 400, headers := MainPy.cors_headers }
            calls := [] }) := by
  have hp := sessionParams_prop_false req hp1 hp2
  refine ⟨?_, ?_, ?_⟩
  · unfold MainOld.ga4_property_sessions
    exact sessionsCore_400 contentTypeHeaders req rr hp
  · intro hA
    obtain ⟨c, hc⟩ := mainOauth_auth_ok req hA
    rw [mainOauth_sessions_eq req rr c hc]
    exact sessionsCore_400 contentTypeHeaders req rr hp
  · intro hA hm
    obtain ⟨c, hc⟩ := mainPy_auth_ok req hA
    rw [mainPy_sessions_eq req rr c hm hc]
    exact sessionsCore_400 MainPy.cors_headers req rr hp

/-- Authorized request that carries no `property_id`. -/
def reqAuthNoProp : HttpRequest :=
  { method := "GET", headers := [("Authorization", "Bearer abc")], args := [], jsonBody := none }

/-- Witness for the amended C5 at a concrete authorized request without
`property_id`. -/
theorem c5_amended_witness :
    truthy (argsGet reqAuthNoProp "property_id") = false
    ∧ validBearer reqAuthNoProp = true
    ∧ MainOauth.ga4_property_sessions reqAuthNoProp rrOk =
        { result := Except.ok { body := missingPropBody, status := 400, headers := contentTypeHeaders }
          calls := [] } :=
  ⟨by decide, by decide,
    (c5_amended reqAuthNoProp rrOk (by decide) (by decide)).2.1 (by decide)⟩

/-- C6: in `ga4_list_accounts_oauth` of `main.py`, every exception after the
preflight check — an auth-header ValueError, or a vendor exception — yields
a 500 whose body carries the exception message under the error field and the
formatted traceback, with CORS headers attached. -/
theorem c6_accounts_500 (req : HttpRequest)
    (la : Except PyExc (List AccountSummary)) (e : PyExc)
    (hm : req.method ≠ "OPTIONS")
    (he : MainPy.get_user_credentials_from_request req = Except.error e
        ∨ ((∃ c, MainPy.get_user_credentials_from_request req = Except.ok c)
            ∧ la = Except.error e)) :
    (MainPy.ga4_list_accounts_oauth req la).result =
      Except.ok { body := ResponseBody.errorWithTraceback e.msg e.traceback,
                  status := 500, headers := MainPy.cors_headers } := by
  have hm' : (req.method == "OPTIONS") = false := by simpa using hm
  unfold MainPy.ga4_list_accounts_oauth
  rw [hm']
  simp only [Bool.false_eq_true, if_false]
  rcases he with he | ⟨⟨c, hc⟩, hla⟩
  · rw [he]
  · rw [hc, hla]

/-- The ValueError the `main.py` auth helper raises on a missing header. -/
def mainPyAuthMissingExc : PyExc :=
  valueError "Missing/invalid Authorization header. Use: Bearer <ACCESS_TOKEN>"

/-- Witness for C6 at a concrete non-OPTIONS request without authorization. -/
theorem c6_accounts_500_witness :
    reqBare.method ≠ "OPTIONS"
    ∧ (MainPy.ga4_list_accounts_oauth reqBare (Except.ok [])).result =
        Except.ok { body := (ResponseBody.errorWithTraceback mainPyAuthMissingExc.msg mainPyAuthMissingExc.traceback)
                    status := 500, headers := MainPy.cors_headers } :=
  ⟨by decide,
    c6_accounts_500 reqBare (Except.ok []) mainPyAuthMissingExc
      (by decide) (Or.inl rfl)⟩

/-- C7: for every vendor account-summaries sequence, the accounts listing is
a 200 whose entries preserve vendor order and carry `account` and
`display_name` unchanged, with each nested property entry carrying the
resource name unchanged and `propertyId` the segment after the last slash
(`property.split("/")[-1]`); the same serialization is produced by
`main_oauth.py`, `main_old.py` and `accounts.py`. -/
theorem c7_accounts_mapping (req : HttpRequest) (summaries : List AccountSummary)
    (hA : validBearer req = true) :
    ((MainOauth.ga4_list_accounts req (Except.ok summaries)).result =
      Except.ok { body := ResponseBody.accountsReport (summaries.map (fun s =>
          { account := s.account, displayName := s.display_name,
            properties := s.property_summaries.map (fun p =>
              { property := p.property, propertyId := lastSegment p.property,
                displayName := p.display_name }) })),
                  status := 200, headers := contentTypeHeaders })
    ∧ ((MainOld.ga4_list_accounts (Except.ok summaries)).result =
      Except.ok { body := ResponseBody.accountsReport (summaries.map (fun s =>
          { account := s.account, displayName := s.display_name,
            properties := s.property_summaries.map (fun p =>
              { property := p.property, propertyId := lastSegment p.property,
                displayName := p.display_name }) })),
                  status := 200, headers := contentTypeHeaders })
    ∧ (AccountsPy.mainOutput summaries = ResponseBody.accountsReport (summaries.map (fun s =>
          { account := s.account, displayName := s.display_name,
            properties := s.property_summaries.map (fun p =>
              { property := p.property, propertyId := lastSegment p.property,
                displayName := p.display_name }) })))
    ∧ lastSegment "properties/182279779" = "182279779" := by
  obtain ⟨c, hc⟩ := mainOauth_auth_ok req hA
  refine ⟨?_, ?_, rfl, by decide⟩
  · unfold MainOauth.ga4_list_accounts
    rw [hc]
    rfl
  · unfold MainOld.ga4_list_accounts
    rfl

/-- Witness for C7 at a concrete authorized request and a one-account
summary list. -/
theorem c7_accounts_mapping_witness :
    validBearer tokReq = true
    ∧ (MainOauth.ga4_list_accounts tokReq (Except.ok
        [{ account := "accounts/52835573", display_name := "App Regina Maria",
           property_summaries := [{ property := "properties/182279779",
                                    display_name := "GA4 web shop app" }] }])).result =
      Except.ok { body := ResponseBody.accountsReport
                    [{ account := "accounts/52835573", displayName := "App Regina Maria",
                       properties := [{ property := "properties/182279779",
                                        propertyId := "182279779",
                                        displayName := "GA4 web shop app" }] }],
                  status := 200, headers := contentTypeHeaders } :=
  ⟨by decide,
    (c7_accounts_mapping tokReq
      [{ account := "accounts/52835573", display_name := "App Regina Maria",
         property_summaries := [{ property := "properties/182279779",
                                  display_name := "GA4 web shop app" }] }]
      (by decide)).1⟩

/-- C8: authorization is checked before parameters — a non-OPTIONS request
that both lacks a valid bearer header and lacks `property_id` gets 401,
never 400, from both bearer sessions handlers. -/
theorem c8_auth_before_params (req : HttpRequest)
    (rr : RunReportRequest → Except PyExc RunReportResponse)
    (hm : req.method ≠ "OPTIONS")
    (hb : pyStartsWith (headerGet req.headers "Authorization" "") "Bearer " = false
        ∨ pyStrip (pyDropChars 7 (headerGet req.headers "Authorization" "")) = "")
    (hp1 : truthy (argsGet req "property_id") = false)
    (hp2 : truthy (lookupStr (bodyDict req) "property_id") = false) :
    (∃ r, (MainPy.ga4_property_sessions_oauth req rr).result = Except.ok r ∧ r.status = 401)
    ∧ (∃ r, (MainOauth.ga4_property_sessions req rr).result = Except.ok r ∧ r.status = 401) := by
  have hv := validBearer_false_of_bad req hb
  obtain ⟨e₁, he₁⟩ := mainPy_auth_err req hv
  obtain ⟨e₂, he₂⟩ := mainOauth_auth_err req hv
  constructor
  · rw [mainPy_sessions_401 req rr e₁ hm he₁]
    exact ⟨_, rfl, rfl⟩
  · rw [mainOauth_sessions_401 req rr e₂ he₂]
    exact ⟨_, rfl, rfl⟩

/-- Witness for C8 at a concrete unauthorized request without
`property_id`. -/
theorem c8_auth_before_params_witness :
    reqBare.method ≠ "OPTIONS"
    ∧ truthy (argsGet reqBare "property_id") = false
    ∧ (∃ r, (MainOauth.ga4_property_sessions reqBare rrOk).result = Except.ok r
        ∧ r.status = 401) :=
  ⟨by decide, by decide,
    (c8_auth_before_params reqBare rrOk (by decide) (Or.inl (by decide))
      (by decide) (by decide)).2⟩

/-- C9 counterexample: on a request without an Authorization header, both
sessions handlers return 401, but the bodies differ — the two files carry
different error message texts — refuting body equality on the 401 path. -/
theorem c9_counterexample :
    (MainPy.ga4_property_sessions_oauth reqBare rrOk).result =
      Except.ok { body := ResponseBody.errorMsg "Missing/invalid Authorization header. Use: Bearer <ACCESS_TOKEN>",
                  status := 401, headers := MainPy.cors_headers }
    ∧ (MainOauth.ga4_property_sessions reqBare rrOk).result =
      Except.ok { body := ResponseBody.errorMsg "Missing or invalid Authorization header. Expected: \x27Authorization: Bearer <ACCESS_TOKEN>\x27",
                  status := 401, headers := contentTypeHeaders }
    ∧ ResponseBody.errorMsg "Missing/invalid Authorization header. Use: Bearer <ACCESS_TOKEN>" ≠
      ResponseBody.errorMsg "Missing or invalid Authorization header. Expected: \x27Authorization: Bearer <ACCESS_TOKEN>\x27"
    ∧ reqBare.method ≠ "OPTIONS" :=
  ⟨rfl, rfl, by decide, by decide⟩

/-- C9 (amended): for every non-OPTIONS request and identical vendor
behavior, the two sessions handlers issue the same vendor calls, raise the
same exceptions, and return responses with equal status codes; the bodies
agree on the authorized (400 and 200) paths, while on the 401 path both are
single-field error objects whose message texts may differ; the headers are
the CORS set versus Content-Type only. -/
theorem c9_amended (req : HttpRequest)
    (rr : RunReportRequest → Except PyExc RunReportResponse)
    (hm : req.method ≠ "OPTIONS") :
    ((MainPy.ga4_property_sessions_oauth req rr).calls =
      (MainOauth.ga4_property_sessions req rr).calls)
    ∧ (∀ e, (MainPy.ga4_property_sessions_oauth req rr).result = Except.error e ↔
            (MainOauth.ga4_property_sessions req rr).result = Except.error e)
    ∧ (∀ r₁ r₂, (MainPy.ga4_property_sessions_oauth req rr).result = Except.ok r₁ →
        (MainOauth.ga4_property_sessions req rr).result = Except.ok r₂ →
        r₁.status = r₂.status ∧ r₁.headers = MainPy.cors_headers
        ∧ r₂.headers = contentTypeHeaders
        ∧ (validBearer req = true → r₁.body = r₂.body)
        ∧ (validBearer req = false → r₁.status = 401
            ∧ (∃ m₁, r₁.body = ResponseBody.errorMsg m₁)
            ∧ (∃ m₂, r₂.body = ResponseBody.errorMsg m₂))) := by
  cases hv : validBearer req with
  | false =>
    obtain ⟨e₁, he₁⟩ := mainPy_auth_err req hv
    obtain ⟨e₂, he₂⟩ := mainOauth_auth_err req hv
    rw [mainPy_sessions_401 req rr e₁ hm he₁, mainOauth_sessions_401 req rr e₂ he₂]
    refine ⟨rfl, ?_, ?_⟩
    · intro e
      constructor <;> intro h <;> exact Except.noConfusion h
    · intro r₁ r₂ h₁ h₂
      cases h₁
      cases h₂
      refine ⟨rfl, rfl, rfl, ?_, ?_⟩
      · intro hvt
        simp [hv] at hvt
      · intro _
        exact ⟨rfl, ⟨e₁.msg, rfl⟩, ⟨e₂.msg, rfl⟩⟩
  | true =>
    obtain ⟨c₁, hc₁⟩ := mainPy_auth_ok req hv
    obtain ⟨c₂, hc₂⟩ := mainOauth_auth_ok req hv
    rw [mainPy_sessions_eq req rr c₁ hm hc₁, mainOauth_sessions_eq req rr c₂ hc₂]
    cases hp : truthy (sessionParams req).property_id with
    | false =>
      rw [sessionsCore_400 MainPy.cors_headers req rr hp,
        sessionsCore_400 contentTypeHeaders req rr hp]
      refine ⟨rfl, ?_, ?_⟩
      · intro e
        constructor <;> intro h <;> exact Except.noConfusion h
      · intro r₁ r₂ h₁ h₂
        cases h₁
        cases h₂
        refine ⟨rfl, rfl, rfl, fun _ => rfl, ?_⟩
        intro hvf
        simp [hv] at hvf
    | true =>
      cases hr : rr (coreRequest req) with
      | error e0 =>
        rw [sessionsCore_err_vendor MainPy.cors_headers req rr e0 hp hr,
          sessionsCore_err_vendor contentTypeHeaders req rr e0 hp hr]
        refine ⟨rfl, fun e => Iff.rfl, ?_⟩
        intro r₁ r₂ h₁ h₂
        exact Except.noConfusion h₁
      | ok resp =>
        cases he : extractSessions resp with
        | error e0 =>
          rw [sessionsCore_err_extract MainPy.cors_headers req rr resp e0 hp hr he,
            sessionsCore_err_extract contentTypeHeaders req rr resp e0 hp hr he]
          refine ⟨rfl, fun e => Iff.rfl, ?_⟩
          intro r₁ r₂ h₁ h₂
          exact Except.noConfusion h₁
        | ok n =>
          rw [sessionsCore_ok MainPy.cors_headers req rr resp n hp hr he,
            sessionsCore_ok contentTypeHeaders req rr resp n hp hr he]
          refine ⟨rfl, ?_, ?_⟩
          · intro e
            constructor <;> intro h <;> exact Except.noConfusion h
          · intro r₁ r₂ h₁ h₂
            cases h₁
            cases h₂
            refine ⟨rfl, rfl, rfl, fun _ => rfl, ?_⟩
            intro hvf
            simp [hv] at hvf

/-- Witness for the amended C9 at a concrete authorized request. -/
theorem c9_amended_witness :
    tokReq.method ≠ "OPTIONS"
    ∧ (MainPy.ga4_property_sessions_oauth tokReq rrOk).calls =
        (MainOauth.ga4_property_sessions tokReq rrOk).calls :=
  ⟨by decide, (c9_amended tokReq rrOk (by decide)).1⟩

/-- An OPTIONS request short-circuits `ga4_list_accounts_oauth` to the
constant 204 preflight response with no Admin API call. -/
lemma mainPy_accounts_options (req : HttpRequest)
    (la : Except PyExc (List AccountSummary)) (hm : req.method = "OPTIONS") :
    MainPy.ga4_list_accounts_oauth req la =
      { result := Except.ok { body := ResponseBody.empty, status := 204,
                              headers := MainPy.cors_headers }
        adminCalled := false } := by
  unfold MainPy.ga4_list_accounts_oauth
  simp [hm]

/-- An OPTIONS request short-circuits `ga4_property_sessions_oauth` to the
constant 204 preflight response with no Data API call. -/
lemma mainPy_sessions_options (req : HttpRequest)
    (rr : RunReportRequest → Except PyExc RunReportResponse)
    (hm : req.method = "OPTIONS") :
    MainPy.ga4_property_sessions_oauth req rr =
      { result := Except.ok { body := ResponseBody.empty, status := 204,
                              headers := MainPy.cors_headers }
        calls := [] } := by
  unfold MainPy.ga4_property_sessions_oauth
  simp [hm]

/-- Every response of `ga4_list_accounts_oauth` carries the CORS header
set. -/
lemma mainPy_accounts_headers (req : HttpRequest)
    (la : Except PyExc (List AccountSummary)) (r : HttpResponse)
    (h : (MainPy.ga4_list_accounts_oauth req la).result = Except.ok r) :
    r.headers = MainPy.cors_headers := by
  cases hmb : req.method == "OPTIONS" with
  | true =>
    have hm : req.method = "OPTIONS" := by simpa using hmb
    rw [mainPy_accounts_options req la hm] at h
    cases h
    rfl
  | false =>
    unfold MainPy.ga4_list_accounts_oauth at h
    rw [hmb] at h
    simp only [Bool.false_eq_true, if_false] at h
    cases hauth : MainPy.get_user_credentials_from_request req with
    | error e =>
      rw [hauth] at h
      cases h
      rfl
    | ok c =>
      rw [hauth] at h
      cases hla : la with
      | error e =>
        rw [hla] at h
        cases h
        rfl
      | ok summaries =>
        rw [hla] at h
        cases h
        rfl

/-- Every response of `ga4_property_sessions_oauth` carries the CORS header
set. -/
lemma mainPy_sessions_headers (req : HttpRequest)
    (rr : RunReportRequest → Except PyExc RunReportResponse) (r : HttpResponse)
    (h : (MainPy.ga4_property_sessions_oauth req rr).result = Except.ok r) :
    r.headers = MainPy.cors_headers := by
  cases hmb : req.method == "OPTIONS" with
  | true =>
    have hm : req.method = "OPTIONS" := by simpa using hmb
    rw [mainPy_sessions_options req rr hm] at h
    cases h
    rfl
  | false =>
    have hm : req.method ≠ "OPTIONS" := by simpa using hmb
    cases hauth : MainPy.get_user_credentials_from_request req with
    | error e =>
      rw [mainPy_sessions_401 req rr e hm hauth] at h
      cases h
      rfl
    | ok c =>
      rw [mainPy_sessions_eq req rr c hm hauth] at h
      exact sessionsCore_headers MainPy.cors_headers req rr r h

/-- C10: every response produced by the `main.py` handlers carries the full
CORS header set; every OPTIONS request short-circuits to the constant
`("", 204, CORS)` response without any vendor SDK call; and the header set
is exactly the four CORS headers. -/
theorem c10_cors_invariant :
    (∀ req la r, (MainPy.ga4_list_accounts_oauth req la).result = Except.ok r →
      r.headers = MainPy.cors_headers)
    ∧ (∀ req rr r, (MainPy.ga4_property_sessions_oauth req rr).result = Except.ok r →
      r.headers = MainPy.cors_headers)
    ∧ (∀ req la rr, req.method = "OPTIONS" →
        MainPy.ga4_list_accounts_oauth req la =
          { result := Except.ok { body := ResponseBody.empty, status := 204,
                                  headers := MainPy.cors_headers }
            adminCalled := false }
        ∧ MainPy.ga4_property_sessions_oauth req rr =
          { result := Except.ok { body := ResponseBody.empty, status := 204,
                                  headers := MainPy.cors_headers }
            calls := [] })
    ∧ MainPy.cors_headers =
        [("Content-Type", "application/json"),
         ("Access-Control-Allow-Origin", "*"),
         ("Access-Control-Allow-Headers", "Authorization, Content-Type"),
         ("Access-Control-Allow-Methods", "GET, POST, OPTIONS")] :=
  ⟨fun req la r h => mainPy_accounts_headers req la r h,
   fun req rr r h => mainPy_sessions_headers req rr r h,
   fun req la rr hm => ⟨mainPy_accounts_options req la hm, mainPy_sessions_options req rr hm⟩,
   rfl⟩

/-- Witness for C10 at a concrete OPTIONS request. -/
theorem c10_cors_invariant_witness :
    reqOptions.method = "OPTIONS"
    ∧ MainPy.ga4_list_accounts_oauth reqOptions (Except.ok []) =
        { result := Except.ok { body := ResponseBody.empty, status := 204,
                                headers := MainPy.cors_headers }
          adminCalled := false } :=
  ⟨rfl, (c10_cors_invariant.2.2.1 reqOptions (Except.ok []) rrOk rfl).1⟩
